import Mathlib

/-!
Verification of the scroll-capture-and-merge core of the pagecapture
repository.  The repository contains two independently evolved variants of
the same algorithm:

* `src/methods.py` together with `src/main.py` (namespace `Methods` /
  `MainPy` below), and
* an unnamed module (`src/unnamed/part_000`) containing the class
  `BrowserHandler` and the helper class `ScreenshotHelper`
  (namespace `BrowserHandler` below).

The browser session is modelled as an explicit `Driver` value supplying the
observable answers of the remote browser: the stream of page-height
readings, the reported viewport inner height after a resize, the constant
chrome offset (`window.outerHeight - window.innerHeight`), and the stream
of screenshots produced by successive capture calls (`none` models a
driver error raised by the capture call).  Side effects performed against
the session (resize, scroll, forcing the document body height, sleeping,
capturing) are recorded in an effect trace.
-/

/-- A captured bitmap as far as the algorithm inspects it: its PIL mode tag
and its pixel dimensions.  The code reads `img.height` / `img.size[1]`,
`img.mode`, and nothing else of the pixel data. -/
structure Img where
  mode : Nat
  width : Nat
  height : Nat
  deriving DecidableEq, Repr

/-- One observable side effect performed against the browser session. -/
inductive Eff where
  | setWindowSize (w h : Nat)
  | scrollTo (x y : Nat)
  | setBodyHeight (h : Nat)
  | sleep
  | capture
  deriving DecidableEq, Repr

/-- Python exceptions that the embedded code can raise. -/
inductive Err where
  | driverError
  | typeError
  | indexError
  | zeroDivisionError
  deriving DecidableEq, Repr

/-- The merged canvas produced by `get_combined_screenshot`: the PIL mode,
the canvas dimensions, and the list of pasted tiles with their vertical
offsets (the horizontal offset is always 0 in the source).  The final
lossless PNG encoding of the canvas is modelled by the canvas itself. -/
structure Composite where
  mode : Nat
  width : Nat
  height : Nat
  pastes : List (Img × Nat)
  deriving DecidableEq, Repr

/-- A screenshot result returned by the top-level `get_screenshot`: either
the single viewport capture or the merged composite. -/
inductive Shot where
  | single (img : Img)
  | merged (c : Composite)
  deriving DecidableEq, Repr

/-- The remote browser session, reduced to the values the algorithm
observes.  `reads k` is the result of the k-th page-height query (each call
to `get_page_height` / `__get_actual_height` already takes the maximum of
its redundant height metrics, so one query is one reading).  `innerH h` is
the `window.innerHeight` reported after the window height was last set to
`h`.  `chrome` is `window.outerHeight - window.innerHeight`.  `shots k` is
the image produced by the k-th capture call, `none` modelling a driver
error raised by that call. -/
structure Driver where
  reads : Nat → Nat
  innerH : Nat → Nat
  chrome : Nat
  shots : Nat → Option Img

/-- Recognizer for capture effects. -/
def isCapture : Eff → Bool
  | Eff.capture => true
  | _ => false

/-- Number of capture calls recorded in a trace. -/
def countCaptures (tr : List Eff) : Nat := tr.countP isCapture

/-- `get_window_height` from `src/methods.py` (lines 25-26): the viewport
height plus the chrome offset. -/
def get_window_height (d : Driver) (viewport : Nat) : Nat := viewport + d.chrome

namespace Methods

/-- `get_max_height` from `src/methods.py` (lines 7-22).  The source is an
unbounded `while True` loop: each iteration reads the height, scrolls,
waits, re-reads, and terminates only when the two consecutive readings are
equal.  The embedding is fuel-indexed: `none` means the loop has not
terminated within `fuel` iterations (the source has no iteration bound at
all).  The returned pair is the stabilized height together with the index
of the next unconsumed reading. -/
def get_max_height (reads : Nat → Nat) : Nat → Nat → Option (Nat × Nat)
  | 0, _ => none
  | fuel + 1, i =>
      let previous_max_height := reads i
      let new_max_height := reads (i + 1)
      if previous_max_height = new_max_height then some (new_max_height, i + 2)
      else get_max_height reads fuel (i + 2)

/-- `get_max_height` of `src/methods.py` diverges on this reading stream:
for every amount of fuel and every start index the loop has not returned. -/
def get_max_height_diverges (reads : Nat → Nat) : Prop :=
  ∀ fuel i, get_max_height reads fuel i = none

end Methods

namespace BrowserHandler

/-- `calculation_times` from `BrowserHandler.get_max_height`
(`src/unnamed/part_000` line 221): the probe-iteration bound. -/
def calculation_times : Nat := 5

/-- The `while calculation_count < calculation_times` loop of
`BrowserHandler.get_max_height` (`src/unnamed/part_000` lines 224-239),
structured over the number `n` of remaining iterations
(`calculation_times - calculation_count`).  Each iteration reads the
height, scrolls, waits, re-reads; on equality it breaks with the new
reading; when the iterations are exhausted the loop exits with the
initial `max_height = 0`.  The second component is the index of the next
unconsumed reading. -/
def get_max_height_loop (reads : Nat → Nat) : Nat → Nat → Nat × Nat
  | 0, i => (0, i)
  | n + 1, i =>
      let previous_max_height := reads i
      let new_max_height := reads (i + 1)
      if new_max_height = previous_max_height then (new_max_height, i + 2)
      else get_max_height_loop reads n (i + 2)

/-- `BrowserHandler.get_max_height` (`src/unnamed/part_000` lines 204-245):
run the probe loop; afterwards `df_ht` is substituted exactly when the
resulting `max_height` is zero (line 242), which happens both when the
converged reading is zero and when the loop exhausted its iterations
without converging (because `max_height` is assigned only on the break). -/
def get_max_height (reads : Nat → Nat) (df_ht i : Nat) : Nat × Nat :=
  let r := get_max_height_loop reads calculation_times i
  (if r.1 = 0 then df_ht else r.1, r.2)

end BrowserHandler

/-- The cumulative paste loop of `get_combined_screenshot`
(`src/methods.py` lines 56-60, `src/unnamed/part_000` lines 995-998):
each tile is pasted at the running sum of the actual heights of the tiles
before it. -/
def pastePlacements : List Img → Nat → List (Img × Nat)
  | [], _ => []
  | img :: rest, offset => (img, offset) :: pastePlacements rest (offset + img.height)

/-- The total-height accumulation loop of `get_combined_screenshot`:
the sum of the actual heights of the tiles. -/
def totalHeight (slices : List Img) : Nat := (slices.map Img.height).sum

/-- `get_combined_screenshot(slices, width)` from `src/methods.py`
(lines 45-68) and `ScreenshotHelper.get_combined_screenshot` from
`src/unnamed/part_000` (lines 977-1003), which are the same algorithm:
sum the tile heights, allocate a canvas of `(width[0], total + 150)` in
the mode of the first tile, paste every tile at its cumulative offset,
and return the (losslessly encoded) canvas.  On an empty tile list the
evaluation of `slices[0].mode` raises `IndexError`; an empty `width` list
would likewise fail at `width[0]`. -/
def get_combined_screenshot (slices : List Img) (width : List Nat) :
    Except Err Composite :=
  match slices with
  | [] => Except.error Err.indexError
  | first :: _ =>
    match width with
    | [] => Except.error Err.indexError
    | w :: _ =>
      Except.ok
        { mode := first.mode
          width := w
          height := totalHeight slices + 150
          pastes := pastePlacements slices 0 }

/-- Number of parameters of the static method
`ScreenshotHelper.get_combined_screenshot(slices, width)`
(`src/unnamed/part_000` line 978). -/
def get_combined_screenshot_param_count : Nat := 2

/-- Number of arguments passed at the call site
`ScreenshotHelper.get_combined_screenshot(slices, width, offset)` in
`BrowserHandler.__get_screenshot_using_cut_and_merger`
(`src/unnamed/part_000` line 426). -/
def bh_merge_call_arg_count : Nat := 3

/-- Python call semantics for a plain (non-variadic, non-defaulted)
function: calling with a number of positional arguments different from the
parameter count raises `TypeError` before the body runs. -/
def pyCallCheck (params args : Nat) : Except Err Unit :=
  if args = params then Except.ok () else Except.error Err.typeError

/-- The scroll/sleep/capture tile loop shared by
`get_screenshot_using_cut_and_merger` (`src/methods.py` lines 135-151) and
`BrowserHandler.__get_screenshot_using_cut_and_merger`
(`src/unnamed/part_000` lines 396-417): `n` iterations remain; each
iteration scrolls to the current offset, waits, captures, advances the
offset by the captured image's actual height and appends the tile.  A
failing capture call raises the driver error.  Returns the tiles in
order, the final offset and the next shot index, together with the
extended effect trace. -/
def tile_loop (d : Driver) :
    Nat → Nat → Nat → List Img → List Eff →
      Except Err (List Img × Nat × Nat) × List Eff
  | 0, offset, si, chunks, tr => (Except.ok (chunks, offset, si), tr)
  | n + 1, offset, si, chunks, tr =>
      let tr2 := tr ++ [Eff.scrollTo 0 offset, Eff.sleep, Eff.capture]
      match d.shots si with
      | none => (Except.error Err.driverError, tr2)
      | some img =>
          tile_loop d n (offset + img.height) (si + 1) (chunks ++ [img]) tr2

deriving instance DecidableEq for Except

/-- The outcome of one run of a cut-and-merge pipeline: the result
(the merged composite or the raised exception), the tile height the run
used for its primary captures, and the effect trace of the run. -/
structure CutRun where
  result : Except Err Composite
  tileHeight : Nat
  trace : List Eff
  deriving DecidableEq, Repr

namespace Methods

/-- `capture_remaining_page` from `src/methods.py` (lines 71-108).
The remainder is `total_height % viewport`; zero means no remaining
section and `None` is returned with no effect.  Otherwise the document
body height is forced to `total_height` (line 84), the scroll offset is
the first chunk's actual height times the number of chunks (line 87, an
`IndexError` on an empty chunk list), the window is resized to
`remaining + chrome`, and after scrolling and waiting the final capture
is taken.  The inner `try` re-raises, so errors propagate unchanged. -/
def capture_remaining_page (d : Driver) (ss_chunks : List Img)
    (total_height win_width viewport si : Nat) (tr : List Eff) :
    Except Err (Option Img × Nat) × List Eff :=
  let remaining_page_height := total_height % viewport
  if remaining_page_height = 0 then (Except.ok (none, si), tr)
  else
    let tr1 := tr ++ [Eff.setBodyHeight total_height]
    match ss_chunks with
    | [] => (Except.error Err.indexError, tr1)
    | first :: rest =>
      let scroll_offset := first.height * (first :: rest).length
      let new_win_height := get_window_height d remaining_page_height
      let tr2 := tr1 ++ [Eff.setWindowSize win_width new_win_height, Eff.sleep,
                         Eff.scrollTo 0 scroll_offset, Eff.sleep, Eff.capture]
      match d.shots si with
      | none => (Except.error Err.driverError, tr2)
      | some img => (Except.ok (some img, si + 1), tr2)

/-- `get_screenshot_using_cut_and_merger` from `src/methods.py`
(lines 111-163).  The stabilized height is re-computed by
`get_max_height` (so the outer `none` propagates its potential
divergence); the window is resized to it and the tile height is the
browser-reported `window.innerHeight` (line 125) — in Python a zero
viewport would raise `ZeroDivisionError` at `max_height / viewport`.
`floor(max_height / viewport)` primary tiles are captured by the tile
loop, the remaining section is captured by `capture_remaining_page` and
appended only when present, and the tiles are merged by
`get_combined_screenshot(ss_chunks, [win_width])`. -/
def get_screenshot_using_cut_and_merger (d : Driver)
    (win_width fuel ri si : Nat) : Option CutRun :=
  match get_max_height d.reads fuel ri with
  | none => none
  | some (max_height, _) =>
    let tr0 : List Eff := [Eff.setWindowSize win_width max_height, Eff.sleep]
    let viewport := d.innerH max_height
    let core : Except Err Composite × List Eff :=
      if viewport = 0 then (Except.error Err.zeroDivisionError, tr0)
      else
        match tile_loop d (max_height / viewport) 0 si [] tr0 with
        | (Except.error e, tr) => (Except.error e, tr)
        | (Except.ok (ss_chunks, _offset, si2), tr) =>
          match capture_remaining_page d ss_chunks max_height win_width viewport si2 tr with
          | (Except.error e, tr2) => (Except.error e, tr2)
          | (Except.ok (last_image, _si3), tr2) =>
            let ss_chunks2 := match last_image with
              | some img => ss_chunks ++ [img]
              | none => ss_chunks
            (get_combined_screenshot ss_chunks2 [win_width], tr2)
    some ⟨core.1, viewport, core.2⟩

end Methods

namespace BrowserHandler

/-- `BrowserHandler.capture_remaining_section` from `src/unnamed/part_000`
(lines 847-916).  Differs from the `methods.py` variant in two constants:
the document body height is forced to `total_height + win_height`
(line 884) and the resized window gets an extra 3500 pixels (line 900).
The scroll offset is again the first chunk's actual height times the
number of chunks (line 889).  The inner `try` re-raises. -/
def capture_remaining_section (d : Driver) (ss_chunks : List Img)
    (total_height win_width win_height si : Nat) (tr : List Eff) :
    Except Err (Option Img × Nat) × List Eff :=
  let remaining_page_height := total_height % win_height
  if remaining_page_height = 0 then (Except.ok (none, si), tr)
  else
    let tr1 := tr ++ [Eff.setBodyHeight (total_height + win_height)]
    match ss_chunks with
    | [] => (Except.error Err.indexError, tr1)
    | first :: rest =>
      let scroll_offset := first.height * (first :: rest).length
      let new_win_height := remaining_page_height + d.chrome
      let tr2 := tr1 ++ [Eff.setWindowSize win_width (new_win_height + 3500), Eff.sleep,
                         Eff.scrollTo 0 scroll_offset, Eff.sleep, Eff.capture]
      match d.shots si with
      | none => (Except.error Err.driverError, tr2)
      | some img => (Except.ok (some img, si + 1), tr2)

/-- `BrowserHandler.__get_screenshot_using_cut_and_merger` from
`src/unnamed/part_000` (lines 353-427).  The tile height is the local
constant `window_height = 15000` (line 372); the stabilized height comes
from `self.get_max_height()` called with its defaults (`df_ht = 0`); the
window is resized to `window_height + chrome`; the tile loop captures
`floor(max_height / 15000)` primary tiles; the remaining section is
appended when present; finally the slices are passed to
`ScreenshotHelper.get_combined_screenshot(slices, width, offset)` —
three arguments against a two-parameter method, so the call raises
`TypeError` (modelled by `pyCallCheck`, which runs after the argument
expressions are evaluated and before the body). -/
def get_screenshot_using_cut_and_merger (d : Driver) (max_width ri si : Nat) :
    CutRun :=
  let window_height := 15000
  let max_height := (get_max_height d.reads 0 ri).1
  let max_ss_count := max_height / window_height
  let new_window_height := window_height + d.chrome
  let tr0 : List Eff := [Eff.setWindowSize max_width new_window_height]
  let core : Except Err Composite × List Eff :=
    match tile_loop d max_ss_count 0 si [] tr0 with
    | (Except.error e, tr) => (Except.error e, tr)
    | (Except.ok (slices, _offset, si2), tr) =>
      match capture_remaining_section d slices max_height max_width window_height si2 tr with
      | (Except.error e, tr2) => (Except.error e, tr2)
      | (Except.ok (last_image, _si3), tr2) =>
        let slices2 := match last_image with
          | some img => slices ++ [img]
          | none => slices
        match pyCallCheck get_combined_screenshot_param_count bh_merge_call_arg_count with
        | Except.error e => (Except.error e, tr2)
        | Except.ok _ => (get_combined_screenshot slices2 [max_width], tr2)
  ⟨core.1, window_height, core.2⟩

/-- `ScreenshotHelper.is_valid_screenshot` (`src/unnamed/part_000`
lines 962-975) abstracted to presence: the source additionally requires
the encoded byte size to exceed the given bound, which has no counterpart
for the symbolic images of this embedding, so a present screenshot is
taken as valid and an absent one as invalid. -/
def is_valid_screenshot (o : Option Shot) : Bool := o.isSome

/-- The `full=True` branch of `BrowserHandler.get_screenshot`
(`src/unnamed/part_000` lines 247-351), with the default
`crawl_ss_type == sc_capture_type` (no automation fallback).  The
stabilized height is `self.get_max_height(user_ht, screenshot_delay)`
(fallback = the user height).  At or below the threshold: one single-shot
capture after resizing to `max_height + chrome` and the bottom-then-top
defensive scroll.  Above it: the cut-and-merge pipeline.  Every exception
of the `try` body is caught by the handler at lines 342-346, which
returns the still-`None` `png_ss` from inside the `except` block — so the
validity check (lines 348-349) only runs when the body completed. -/
def get_screenshot_full (d : Driver) (df_wd df_ht cut_merge_threshold : Nat) :
    Except Err (Option Shot) × List Eff :=
  let r := get_max_height d.reads df_ht 0
  let max_height := r.1
  if max_height ≤ cut_merge_threshold then
    let tr : List Eff :=
      [Eff.setWindowSize df_wd (max_height + d.chrome),
       Eff.scrollTo df_wd max_height, Eff.sleep,
       Eff.scrollTo 0 0, Eff.sleep, Eff.capture]
    match d.shots 0 with
    | none => (Except.ok none, tr)
    | some img =>
      if is_valid_screenshot (some (Shot.single img)) then
        (Except.ok (some (Shot.single img)), tr)
      else (Except.error Err.typeError, tr)
  else
    let run := get_screenshot_using_cut_and_merger d df_wd r.2 0
    match run.result with
    | Except.error _ => (Except.ok none, run.trace)
    | Except.ok c =>
      if is_valid_screenshot (some (Shot.merged c)) then
        (Except.ok (some (Shot.merged c)), run.trace)
      else (Except.error Err.typeError, run.trace)

end BrowserHandler

namespace MainPy

/-- The `full=True` branch of `get_screenshot` from `src/main.py`
(lines 10-80).  The stabilized height comes from the unbounded
`methods.get_max_height` (outer `none` = divergence).  At or below the
threshold: resize to `get_window_height(wd, max_height)`, wait, scroll to
the bottom and back to the top, and capture once.  Above it:
`get_screenshot_using_cut_and_merger`.  The handler at lines 74-78
catches every exception and returns the still-`None` `png_ss`, so a
failure is observed by the caller only as a `None` result. -/
def get_screenshot_full (d : Driver) (df_wd cut_merge_threshold fuel : Nat) :
    Option (Option Shot × List Eff) :=
  match Methods.get_max_height d.reads fuel 0 with
  | none => none
  | some (max_height, ri) =>
    if max_height ≤ cut_merge_threshold then
      let tr : List Eff :=
        [Eff.setWindowSize df_wd (get_window_height d max_height), Eff.sleep,
         Eff.scrollTo df_wd max_height, Eff.sleep,
         Eff.scrollTo 0 0, Eff.sleep, Eff.capture]
      match d.shots 0 with
      | none => some (none, tr)
      | some img => some (some (Shot.single img), tr)
    else
      match Methods.get_screenshot_using_cut_and_merger d df_wd fuel ri 0 with
      | none => none
      | some run =>
        match run.result with
        | Except.error _ => some (none, run.trace)
        | Except.ok c => some (some (Shot.merged c), run.trace)

end MainPy

/-- A concrete successfully captured tile used by the witnesses. -/
def constImg : Img := ⟨0, 800, 15000⟩

/-- A driver whose height readings are constantly `r`, whose viewport inner
height is always reported as 15000, and whose captures all succeed with
`constImg`. -/
def constDriver (r : Nat) : Driver :=
  { reads := fun _ => r
    innerH := fun _ => 15000
    chrome := 100
    shots := fun _ => some constImg }

/-- A driver that honors window resizes exactly: after the window height is
set to `h` the reported inner height is `h` itself.  Height readings are
constantly `r`; captures succeed. -/
def honestDriver (r : Nat) : Driver :=
  { reads := fun _ => r
    innerH := fun h => h
    chrome := 100
    shots := fun _ => some constImg }

/-- A driver with stabilized height 31000 whose first capture succeeds and
whose second capture raises a driver error. -/
def failAfterOneDriver : Driver :=
  { reads := fun _ => 31000
    innerH := fun _ => 15000
    chrome := 100
    shots := fun k => if k = 0 then some constImg else none }

theorem countCaptures_append (a b : List Eff) :
    countCaptures (a ++ b) = countCaptures a + countCaptures b := by
  simp [countCaptures, List.countP_append]

theorem pastePlacements_length (s : List Img) :
    ∀ offset, (pastePlacements s offset).length = s.length := by
  induction s with
  | nil => intro offset; rfl
  | cons a t ih => intro offset; simp [pastePlacements, ih]

theorem pastePlacements_get? (s : List Img) :
    ∀ (offset i : Nat) (hi : i < s.length),
      (pastePlacements s offset).get? i
        = some (s.get ⟨i, hi⟩, offset + totalHeight (s.take i)) := by
  induction s with
  | nil => intro offset i hi; exact absurd hi (Nat.not_lt_zero i)
  | cons a t ih =>
      intro offset i hi
      cases i with
      | zero => simp [pastePlacements, totalHeight]
      | succ j =>
          have hj : j < t.length := Nat.lt_of_succ_lt_succ hi
          have := ih (offset + a.height) j hj
          simp only [pastePlacements, List.get?_cons_succ, List.get_cons_succ,
            List.take_succ_cons, totalHeight, List.map_cons, List.sum_cons] at this ⊢
          rw [this]
          congr 2
          omega

theorem BrowserHandler.gmh_loop_exhaust (reads : Nat → Nat) :
    ∀ (n i : Nat), (∀ j, j < n → reads (i + 2 * j + 1) ≠ reads (i + 2 * j)) →
      BrowserHandler.get_max_height_loop reads n i = (0, i + 2 * n) := by
  intro n
  induction n with
  | zero => intro i _; rfl
  | succ m ih =>
      intro i h
      have h0 : reads (i + 1) ≠ reads i := by
        have := h 0 (Nat.succ_pos m)
        simpa using this
      simp only [BrowserHandler.get_max_height_loop]
      rw [if_neg h0]
      have hrec := ih (i + 2) ?_
      · rw [hrec]
        have : i + 2 + 2 * m = i + 2 * (m + 1) := by omega
        rw [this]
      · intro j hj
        have e1 : i + 2 + 2 * j + 1 = i + 2 * (j + 1) + 1 := by omega
        have e2 : i + 2 + 2 * j = i + 2 * (j + 1) := by omega
        rw [e1, e2]
        exact h (j + 1) (Nat.succ_lt_succ hj)

theorem BrowserHandler.gmh_loop_conv (reads : Nat → Nat) :
    ∀ (n i k : Nat), k < n →
      (∀ j, j < k → reads (i + 2 * j + 1) ≠ reads (i + 2 * j)) →
      reads (i + 2 * k + 1) = reads (i + 2 * k) →
      BrowserHandler.get_max_height_loop reads n i
        = (reads (i + 2 * k + 1), i + 2 * k + 2) := by
  intro n
  induction n with
  | zero => intro i k hk; exact absurd hk (Nat.not_lt_zero k)
  | succ m ih =>
      intro i k hk hpre hconv
      cases k with
      | zero =>
          simp only [Nat.mul_zero, Nat.add_zero] at hconv ⊢
          simp only [BrowserHandler.get_max_height_loop]
          rw [if_pos hconv]
      | succ j =>
          have h0 : reads (i + 1) ≠ reads i := by
            have := hpre 0 (Nat.succ_pos j)
            simpa using this
          simp only [BrowserHandler.get_max_height_loop]
          rw [if_neg h0]
          have hrec := ih (i + 2) j (Nat.lt_of_succ_lt_succ hk) ?_ ?_
          · rw [hrec]
            have e1 : i + 2 + 2 * j + 1 = i + 2 * (j + 1) + 1 := by omega
            have e2 : i + 2 + 2 * j + 2 = i + 2 * (j + 1) + 2 := by omega
            rw [e1, e2]
          · intro l hl
            have e1 : i + 2 + 2 * l + 1 = i + 2 * (l + 1) + 1 := by omega
            have e2 : i + 2 + 2 * l = i + 2 * (l + 1) := by omega
            rw [e1, e2]
            exact hpre (l + 1) (Nat.succ_lt_succ hl)
          · have e1 : i + 2 + 2 * j + 1 = i + 2 * (j + 1) + 1 := by omega
            have e2 : i + 2 + 2 * j = i + 2 * (j + 1) := by omega
            rw [e1, e2]
            exact hconv

theorem BrowserHandler.gmh_loop_reads_bound (reads : Nat → Nat) :
    ∀ (n i : Nat), (BrowserHandler.get_max_height_loop reads n i).2 ≤ i + 2 * n := by
  intro n
  induction n with
  | zero => intro i; simp [BrowserHandler.get_max_height_loop]
  | succ m ih =>
      intro i
      simp only [BrowserHandler.get_max_height_loop]
      split
      · omega
      · have := ih (i + 2)
        omega

theorem tile_loop_ok (d : Driver) :
    ∀ (n offset si : Nat) (acc : List Img) (tr : List Eff),
      (∀ j, j < n → (d.shots (si + j)).isSome) →
      ∃ (chunks : List Img) (offset2 : Nat) (tr2 : List Eff),
        tile_loop d n offset si acc tr
          = (Except.ok (acc ++ chunks, offset2, si + n), tr ++ tr2) ∧
        chunks.length = n ∧ countCaptures tr2 = n := by
  intro n
  induction n with
  | zero =>
      intro offset si acc tr _
      exact ⟨[], offset, [], by simp [tile_loop], rfl, rfl⟩
  | succ m ih =>
      intro offset si acc tr h
      have h0 : (d.shots si).isSome := by simpa using h 0 (Nat.succ_pos m)
      obtain ⟨img, himg⟩ := Option.isSome_iff_exists.mp h0
      have hrest : ∀ j, j < m → (d.shots (si + 1 + j)).isSome := by
        intro j hj
        have := h (j + 1) (Nat.succ_lt_succ hj)
        rwa [show si + (j + 1) = si + 1 + j from by omega] at this
      obtain ⟨chunks, offset2, tr2, heq, hlen, hcap⟩ :=
        ih (offset + img.height) (si + 1) (acc ++ [img])
          (tr ++ [Eff.scrollTo 0 offset, Eff.sleep, Eff.capture]) hrest
      refine ⟨img :: chunks, offset2,
        [Eff.scrollTo 0 offset, Eff.sleep, Eff.capture] ++ tr2, ?_, ?_, ?_⟩
      · have e : si + 1 + m = si + (m + 1) := by omega
        simp only [tile_loop, himg]
        rw [heq, e]
        simp [List.append_assoc]
      · simp [hlen]
      · rw [countCaptures_append, hcap,
          show countCaptures [Eff.scrollTo 0 offset, Eff.sleep, Eff.capture] = 1 from rfl]
        omega

theorem tile_loop_fail (d : Driver) :
    ∀ (k n offset si : Nat) (acc : List Img) (tr : List Eff),
      k < n →
      (∀ j, j < k → (d.shots (si + j)).isSome) →
      d.shots (si + k) = none →
      ∃ tr2, tile_loop d n offset si acc tr
          = (Except.error Err.driverError, tr ++ tr2) ∧
        countCaptures tr2 = k + 1 := by
  intro k
  induction k with
  | zero =>
      intro n offset si acc tr hk _ hfail
      obtain ⟨m, rfl⟩ : ∃ m, n = m + 1 := ⟨n - 1, by omega⟩
      rw [Nat.add_zero] at hfail
      refine ⟨[Eff.scrollTo 0 offset, Eff.sleep, Eff.capture], ?_, rfl⟩
      simp only [tile_loop, hfail]
  | succ l ih =>
      intro n offset si acc tr hk hpre hfail
      obtain ⟨m, rfl⟩ : ∃ m, n = m + 1 := ⟨n - 1, by omega⟩
      have h0 : (d.shots si).isSome := by simpa using hpre 0 (Nat.succ_pos l)
      obtain ⟨img, himg⟩ := Option.isSome_iff_exists.mp h0
      have hpre2 : ∀ j, j < l → (d.shots (si + 1 + j)).isSome := by
        intro j hj
        have := hpre (j + 1) (Nat.succ_lt_succ hj)
        rwa [show si + (j + 1) = si + 1 + j from by omega] at this
      have hfail2 : d.shots (si + 1 + l) = none := by
        rwa [show si + (l + 1) = si + 1 + l from by omega] at hfail
      obtain ⟨tr2, heq, hcap⟩ :=
        ih m (offset + img.height) (si + 1) (acc ++ [img])
          (tr ++ [Eff.scrollTo 0 offset, Eff.sleep, Eff.capture])
          (Nat.lt_of_succ_lt_succ hk) hpre2 hfail2
      refine ⟨[Eff.scrollTo 0 offset, Eff.sleep, Eff.capture] ++ tr2, ?_, ?_⟩
      · simp only [tile_loop, himg]
        rw [heq, List.append_assoc]
      · rw [countCaptures_append, hcap,
          show countCaptures [Eff.scrollTo 0 offset, Eff.sleep, Eff.capture] = 1 from rfl]
        omega

theorem Methods.capture_remaining_page_rem_zero (d : Driver) (chunks : List Img)
    (total w v si : Nat) (tr : List Eff) (h : total % v = 0) :
    Methods.capture_remaining_page d chunks total w v si tr
      = (Except.ok (none, si), tr) := by
  simp [Methods.capture_remaining_page, h]

theorem Methods.capture_remaining_page_rem_pos (d : Driver) (first : Img)
    (rest : List Img) (total w v si : Nat) (tr : List Eff) (img : Img)
    (h : total % v ≠ 0) (hshot : d.shots si = some img) :
    Methods.capture_remaining_page d (first :: rest) total w v si tr
      = (Except.ok (some img, si + 1),
         tr ++ [Eff.setBodyHeight total,
                Eff.setWindowSize w (total % v + d.chrome), Eff.sleep,
                Eff.scrollTo 0 (first.height * (first :: rest).length), Eff.sleep,
                Eff.capture]) := by
  simp [Methods.capture_remaining_page, h, hshot, get_window_height]

theorem BrowserHandler.capture_remaining_section_rem_zero (d : Driver)
    (chunks : List Img) (total w wh si : Nat) (tr : List Eff) (h : total % wh = 0) :
    BrowserHandler.capture_remaining_section d chunks total w wh si tr
      = (Except.ok (none, si), tr) := by
  simp [BrowserHandler.capture_remaining_section, h]

theorem BrowserHandler.capture_remaining_section_rem_pos (d : Driver) (first : Img)
    (rest : List Img) (total w wh si : Nat) (tr : List Eff) (img : Img)
    (h : total % wh ≠ 0) (hshot : d.shots si = some img) :
    BrowserHandler.capture_remaining_section d (first :: rest) total w wh si tr
      = (Except.ok (some img, si + 1),
         tr ++ [Eff.setBodyHeight (total + wh),
                Eff.setWindowSize w (total % wh + d.chrome + 3500), Eff.sleep,
                Eff.scrollTo 0 (first.height * (first :: rest).length), Eff.sleep,
                Eff.capture]) := by
  simp [BrowserHandler.capture_remaining_section, h, hshot]

/-- C1, counterexample: on the reading stream 1, 2, 3, ... no two
consecutive reads are ever equal, so `BrowserHandler.get_max_height`
exhausts its five iterations; the claim says it then returns the last
candidate reading (which is the tenth reading, 10), but it returns the
fallback 777, because the candidate was never assigned and the zero
fallback rule fires. -/
theorem C1_counterexample :
    BrowserHandler.get_max_height (fun n => n + 1) 777 0 = (777, 10) ∧
    (777 : Nat) ≠ 10 := by
  constructor
  · rfl
  · decide

/-- C1 (amended): `BrowserHandler.get_max_height` returns the stabilized
reading when two consecutive reads are equal within the iteration bound
(substituting `df_ht` when that reading is zero); when the bound is
exhausted without convergence it returns `df_ht` (the candidate remains
zero, so the zero-fallback rule fires) — not the last candidate; and the
`methods.py` variant, which has no bound and no fallback, returns the
stabilized reading on convergence. -/
theorem C1_thm (reads : Nat → Nat) (df_ht i k : Nat)
    (hk : k < BrowserHandler.calculation_times)
    (hpre : ∀ j, j < k → reads (i + 2 * j + 1) ≠ reads (i + 2 * j)) :
    (reads (i + 2 * k + 1) = reads (i + 2 * k) →
      BrowserHandler.get_max_height reads df_ht i
        = (if reads (i + 2 * k + 1) = 0 then df_ht else reads (i + 2 * k + 1),
           i + 2 * k + 2)) ∧
    ((∀ j, j < BrowserHandler.calculation_times →
        reads (i + 2 * j + 1) ≠ reads (i + 2 * j)) →
      BrowserHandler.get_max_height reads df_ht i
        = (df_ht, i + 2 * BrowserHandler.calculation_times)) ∧
    (∀ fuel, reads (i + 1) = reads i →
      Methods.get_max_height reads (fuel + 1) i = some (reads (i + 1), i + 2)) := by
  refine ⟨?_, ?_, ?_⟩
  · intro hconv
    unfold BrowserHandler.get_max_height
    rw [BrowserHandler.gmh_loop_conv reads BrowserHandler.calculation_times i k hk
      hpre hconv]
  · intro hall
    unfold BrowserHandler.get_max_height
    rw [BrowserHandler.gmh_loop_exhaust reads BrowserHandler.calculation_times i hall]
    simp
  · intro fuel hconv
    simp only [Methods.get_max_height]
    rw [if_pos hconv.symm]

/-- C1 witness: constant readings converge at the first probe iteration and
the stabilized value 42 (not the fallback 7) is returned. -/
theorem C1_witness :
    BrowserHandler.get_max_height (fun _ => 42) 7 0 = (42, 2) := by
  have h := (C1_thm (fun _ => 42) 7 0 0 (by decide)
    (fun j hj => absurd hj (Nat.not_lt_zero j))).1 rfl
  simpa using h

/-- C10, counterexample: `get_max_height` of `src/methods.py` has no
iteration bound; on the strictly increasing reading stream 0, 1, 2, ...
no two consecutive reads are ever equal and the probe loop never returns,
for any amount of fuel. -/
theorem C10_counterexample : Methods.get_max_height_diverges (fun n => n) := by
  intro fuel
  induction fuel with
  | zero => intro i; rfl
  | succ m ih =>
      intro i
      have hne : (i : Nat) ≠ i + 1 := by omega
      simp only [Methods.get_max_height]
      rw [if_neg hne]
      exact ih (i + 2)

/-- C10 (amended): the BrowserHandler variant of the height probe always
terminates within its bounded iteration count: on any reading stream it
consumes at most `2 * calculation_times` readings (two per probe
iteration) before returning. -/
theorem C10_thm (reads : Nat → Nat) (df_ht i : Nat) :
    (BrowserHandler.get_max_height reads df_ht i).2
      ≤ i + 2 * BrowserHandler.calculation_times := by
  unfold BrowserHandler.get_max_height
  exact BrowserHandler.gmh_loop_reads_bound reads BrowserHandler.calculation_times i

/-- C4: merging a non-empty ordered tile sequence at width `w` produces a
canvas of exactly `(w, sum of the tiles' actual heights + 150)`, with
every tile pasted at the cumulative sum of the actual heights of the
preceding tiles. -/
theorem C4_thm (slices : List Img) (w : Nat) (hne : slices ≠ []) :
    ∃ c : Composite,
      get_combined_screenshot slices [w] = Except.ok c ∧
      c.width = w ∧
      c.height = totalHeight slices + 150 ∧
      c.pastes.length = slices.length ∧
      ∀ (i : Nat) (hi : i < slices.length),
        c.pastes.get? i
          = some (slices.get ⟨i, hi⟩, totalHeight (slices.take i)) := by
  cases slices with
  | nil => exact absurd rfl hne
  | cons first rest =>
      refine ⟨_, rfl, rfl, rfl, pastePlacements_length _ _, ?_⟩
      intro i hi
      have h := pastePlacements_get? (first :: rest) 0 i hi
      simpa using h

/-- C4 witness: tiles of heights [100, 100, 50] at width 800 merge into an
800 by 400 canvas (250 + the 150 margin) with the third tile pasted at
vertical offset 200. -/
theorem C4_witness :
    (∃ c : Composite,
      get_combined_screenshot [⟨0, 800, 100⟩, ⟨0, 800, 100⟩, ⟨0, 800, 50⟩] [800]
        = Except.ok c ∧
      c.width = 800 ∧
      c.height = totalHeight [⟨0, 800, 100⟩, ⟨0, 800, 100⟩, ⟨0, 800, 50⟩] + 150 ∧
      c.pastes.length
        = ([⟨0, 800, 100⟩, ⟨0, 800, 100⟩, ⟨0, 800, 50⟩] : List Img).length ∧
      ∀ (i : Nat)
        (hi : i < ([⟨0, 800, 100⟩, ⟨0, 800, 100⟩, ⟨0, 800, 50⟩] : List Img).length),
        c.pastes.get? i
          = some (([⟨0, 800, 100⟩, ⟨0, 800, 100⟩, ⟨0, 800, 50⟩] : List Img).get ⟨i, hi⟩,
              totalHeight (([⟨0, 800, 100⟩, ⟨0, 800, 100⟩, ⟨0, 800, 50⟩] : List Img).take i))) ∧
    totalHeight [⟨0, 800, 100⟩, ⟨0, 800, 100⟩, ⟨0, 800, 50⟩] + 150 = 400 ∧
    pastePlacements [⟨0, 800, 100⟩, ⟨0, 800, 100⟩, ⟨0, 800, 50⟩] 0
      = [(⟨0, 800, 100⟩, 0), (⟨0, 800, 100⟩, 100), (⟨0, 800, 50⟩, 200)] :=
  ⟨C4_thm [⟨0, 800, 100⟩, ⟨0, 800, 100⟩, ⟨0, 800, 50⟩] 800 (by decide),
   by decide, by decide⟩

/-- C5: merging an empty tile sequence fails with a raised error (the
`IndexError` from evaluating `slices[0].mode`, realizing the spec's
EmptyComposite failure) rather than returning image bytes. -/
theorem C5_thm (width : List Nat) :
    get_combined_screenshot [] width = Except.error Err.indexError := rfl

/-- C7, counterexample: a remainder capture over a stabilized height of
20000 and tile height 15000 (remainder 5000), with one captured tile of
actual height 14000.  The `methods.py` variant forces the body height to
20000 — not to stabilized + tile = 35000 as the claim states — and both
variants scroll to 14000 (first tile's actual height times the tile
count), not to tile height times tile count = 15000. -/
theorem C7_counterexample :
    (Methods.capture_remaining_page (constDriver 20000) [⟨0, 800, 14000⟩]
        20000 800 15000 0 []).2
      = [Eff.setBodyHeight 20000, Eff.setWindowSize 800 5100, Eff.sleep,
         Eff.scrollTo 0 14000, Eff.sleep, Eff.capture] ∧
    Eff.setBodyHeight 35000
      ∉ (Methods.capture_remaining_page (constDriver 20000) [⟨0, 800, 14000⟩]
          20000 800 15000 0 []).2 ∧
    Eff.scrollTo 0 15000
      ∉ (Methods.capture_remaining_page (constDriver 20000) [⟨0, 800, 14000⟩]
          20000 800 15000 0 []).2 ∧
    (BrowserHandler.capture_remaining_section (constDriver 20000) [⟨0, 800, 14000⟩]
        20000 800 15000 0 []).2
      = [Eff.setBodyHeight 35000, Eff.setWindowSize 800 8600, Eff.sleep,
         Eff.scrollTo 0 14000, Eff.sleep, Eff.capture] ∧
    Eff.scrollTo 0 15000
      ∉ (BrowserHandler.capture_remaining_section (constDriver 20000) [⟨0, 800, 14000⟩]
          20000 800 15000 0 []).2 := by
  decide

/-- C7 (amended): when the remainder is nonzero, the remainder capture of
the BrowserHandler variant forces the document body height to
stabilized + tile height while the `methods.py` variant forces it to the
stabilized height alone; both then resize the window (the BrowserHandler
variant adds an extra 3500 px), scroll to the vertical offset given by
the first captured tile's actual height times the number of tiles
captured (equal to tile height times tiles captured only when the first
tile's actual height equals the tile height), wait, and take the final
capture. -/
theorem C7_thm (dm db : Driver) (first : Img) (rest : List Img)
    (total w wh v si siB : Nat) (trm trb : List Eff) (img imgB : Img)
    (hrem : total % v ≠ 0) (hremB : total % wh ≠ 0)
    (hshot : dm.shots si = some img) (hshotB : db.shots siB = some imgB) :
    Methods.capture_remaining_page dm (first :: rest) total w v si trm
      = (Except.ok (some img, si + 1),
         trm ++ [Eff.setBodyHeight total,
                 Eff.setWindowSize w (total % v + dm.chrome), Eff.sleep,
                 Eff.scrollTo 0 (first.height * (first :: rest).length), Eff.sleep,
                 Eff.capture]) ∧
    BrowserHandler.capture_remaining_section db (first :: rest) total w wh siB trb
      = (Except.ok (some imgB, siB + 1),
         trb ++ [Eff.setBodyHeight (total + wh),
                 Eff.setWindowSize w (total % wh + db.chrome + 3500), Eff.sleep,
                 Eff.scrollTo 0 (first.height * (first :: rest).length), Eff.sleep,
                 Eff.capture]) :=
  ⟨Methods.capture_remaining_page_rem_pos dm first rest total w v si trm img hrem hshot,
   BrowserHandler.capture_remaining_section_rem_pos db first rest total w wh siB trb
     imgB hremB hshotB⟩

/-- C7 witness: the amended characterization at stabilized height 20000,
tile height 15000, one tile of actual height 14000. -/
theorem C7_witness :
    Methods.capture_remaining_page (constDriver 20000) [⟨0, 800, 14000⟩]
        20000 800 15000 5 []
      = (Except.ok (some constImg, 6),
         [] ++ [Eff.setBodyHeight 20000,
                Eff.setWindowSize 800 (20000 % 15000 + (constDriver 20000).chrome),
                Eff.sleep,
                Eff.scrollTo 0 ((⟨0, 800, 14000⟩ : Img).height *
                  ([⟨0, 800, 14000⟩] : List Img).length), Eff.sleep,
                Eff.capture]) ∧
    BrowserHandler.capture_remaining_section (constDriver 20000) [⟨0, 800, 14000⟩]
        20000 800 15000 5 []
      = (Except.ok (some constImg, 6),
         [] ++ [Eff.setBodyHeight (20000 + 15000),
                Eff.setWindowSize 800 (20000 % 15000 + (constDriver 20000).chrome + 3500),
                Eff.sleep,
                Eff.scrollTo 0 ((⟨0, 800, 14000⟩ : Img).height *
                  ([⟨0, 800, 14000⟩] : List Img).length), Eff.sleep,
                Eff.capture]) :=
  C7_thm (constDriver 20000) (constDriver 20000) ⟨0, 800, 14000⟩ []
    20000 800 15000 15000 5 5 [] [] constImg constImg
    (by decide) (by decide) rfl rfl

/-- C8, counterexample: in the `methods.py` variant the tile height is the
browser-reported `window.innerHeight` taken after resizing the window to
the stabilized height (`src/methods.py` line 125), not a configured
constant: against a driver that honors resizes exactly, two pages with
stabilized heights 20000 and 30000 get tile heights 20000 and 30000. -/
theorem C8_counterexample :
    (Methods.get_screenshot_using_cut_and_merger (honestDriver 20000) 800 1 0 0).map
        CutRun.tileHeight = some 20000 ∧
    (Methods.get_screenshot_using_cut_and_merger (honestDriver 30000) 800 1 0 0).map
        CutRun.tileHeight = some 30000 ∧
    (20000 : Nat) ≠ 30000 := by
  decide

/-- C8 (amended): the BrowserHandler variant uses the configured constant
15000 as tile height on every run, independent of the stabilized height;
the `methods.py` variant uses the driver-reported inner height after
resizing to the stabilized height, which may vary with it. -/
theorem C8_thm (db dm : Driver) (w ri si fuel riM siM h ri2 : Nat)
    (hg : Methods.get_max_height dm.reads fuel riM = some (h, ri2)) :
    (BrowserHandler.get_screenshot_using_cut_and_merger db w ri si).tileHeight
      = 15000 ∧
    (Methods.get_screenshot_using_cut_and_merger dm w fuel riM siM).map
        CutRun.tileHeight = some (dm.innerH h) := by
  constructor
  · rfl
  · simp [Methods.get_screenshot_using_cut_and_merger, hg]

/-- C8 witness: the amended statement at concrete drivers. -/
theorem C8_witness :
    (BrowserHandler.get_screenshot_using_cut_and_merger (constDriver 30000) 800 0 0).tileHeight
      = 15000 ∧
    (Methods.get_screenshot_using_cut_and_merger (honestDriver 20000) 800 1 0 0).map
        CutRun.tileHeight = some ((honestDriver 20000).innerH 20000) :=
  C8_thm (constDriver 30000) (honestDriver 20000) 800 0 0 1 0 0 20000 2 (by decide)

/-- C3: every run of the BrowserHandler tiled path that completes its tile
loop (and remainder step) reaches the merge call
`ScreenshotHelper.get_combined_screenshot(slices, width, offset)`, which
passes three arguments to a two-parameter method and therefore raises
`TypeError`; the run never produces a composite image. -/
theorem C3_thm (d : Driver) (w ri si : Nat)
    (h15 : 15000 ≤ (BrowserHandler.get_max_height d.reads 0 ri).1)
    (hshots : ∀ j, j ≤ (BrowserHandler.get_max_height d.reads 0 ri).1 / 15000 →
      (d.shots (si + j)).isSome) :
    (BrowserHandler.get_screenshot_using_cut_and_merger d w ri si).result
      = Except.error Err.typeError := by
  have hn1 : 1 ≤ (BrowserHandler.get_max_height d.reads 0 ri).1 / 15000 :=
    (Nat.one_le_div_iff (by norm_num)).mpr h15
  obtain ⟨chunks, offset2, tr2, heq, hlen, hcap⟩ :=
    tile_loop_ok d ((BrowserHandler.get_max_height d.reads 0 ri).1 / 15000) 0 si []
      [Eff.setWindowSize w (15000 + d.chrome)]
      (fun j hj => hshots j (Nat.le_of_lt hj))
  simp only [List.nil_append] at heq
  cases chunks with
  | nil => simp at hlen; omega
  | cons first rest =>
    rcases Nat.eq_zero_or_pos ((BrowserHandler.get_max_height d.reads 0 ri).1 % 15000)
      with hrem | hrem
    · simp [BrowserHandler.get_screenshot_using_cut_and_merger, heq,
        BrowserHandler.capture_remaining_section_rem_zero, hrem,
        pyCallCheck, get_combined_screenshot_param_count, bh_merge_call_arg_count]
    · have hne : (BrowserHandler.get_max_height d.reads 0 ri).1 % 15000 ≠ 0 :=
        Nat.pos_iff_ne_zero.mp hrem
      obtain ⟨img, himg⟩ := Option.isSome_iff_exists.mp
        (hshots ((BrowserHandler.get_max_height d.reads 0 ri).1 / 15000) le_rfl)
      simp [BrowserHandler.get_screenshot_using_cut_and_merger, heq,
        BrowserHandler.capture_remaining_section_rem_pos, hne, himg,
        pyCallCheck, get_combined_screenshot_param_count, bh_merge_call_arg_count]

/-- C3 witness: a driver with stabilized height 30000 and all captures
succeeding completes the tile loop, and the run fails with `TypeError` at
the merge call. -/
theorem C3_witness :
    (BrowserHandler.get_screenshot_using_cut_and_merger (constDriver 30000) 800 0 0).result
      = Except.error Err.typeError :=
  C3_thm (constDriver 30000) 800 0 0 (by decide) (fun j _ => rfl)

/-- C6: a full-page capture whose stabilized height is at or below the
threshold takes the single-shot path in both variants: the effect trace
contains exactly one capture call. -/
theorem C6_thm (dm db : Driver) (w thr fuel h ri df_ht : Nat)
    (hg : Methods.get_max_height dm.reads fuel 0 = some (h, ri))
    (hle : h ≤ thr)
    (hBle : (BrowserHandler.get_max_height db.reads df_ht 0).1 ≤ thr) :
    (∃ res tr, MainPy.get_screenshot_full dm w thr fuel = some (res, tr) ∧
      countCaptures tr = 1) ∧
    (∃ res tr, BrowserHandler.get_screenshot_full db w df_ht thr = (res, tr) ∧
      countCaptures tr = 1) := by
  constructor
  · simp only [MainPy.get_screenshot_full, hg, if_pos hle]
    cases hsh : dm.shots 0 with
    | none => exact ⟨none, _, rfl, rfl⟩
    | some img => exact ⟨some (Shot.single img), _, rfl, rfl⟩
  · simp only [BrowserHandler.get_screenshot_full, if_pos hBle]
    cases hsh : db.shots 0 with
    | none => exact ⟨Except.ok none, _, rfl, rfl⟩
    | some img => exact ⟨Except.ok (some (Shot.single img)), _, rfl, rfl⟩

/-- C6 witness: stabilized height 10000 at threshold 15000 gives exactly
one capture call in both variants. -/
theorem C6_witness :
    (∃ res tr, MainPy.get_screenshot_full (constDriver 10000) 800 15000 1
        = some (res, tr) ∧ countCaptures tr = 1) ∧
    (∃ res tr, BrowserHandler.get_screenshot_full (constDriver 10000) 800 1000 15000
        = (res, tr) ∧ countCaptures tr = 1) :=
  C6_thm (constDriver 10000) (constDriver 10000) 800 15000 1 10000 2 1000
    (by decide) (by decide) (by decide)

/-- C2: a tiled full-page capture performs exactly
`floor(stabilized_height / tile_height)` primary capture calls plus
exactly one remainder capture when the remainder is nonzero and none when
it is zero, in both variants; the merged tile sequence of the
`methods.py` variant has exactly that many tiles, so nothing (in
particular no zero-height remainder tile) is appended when the remainder
is zero. -/
theorem C2_thm (dm db : Driver) (w fuel h ri ri2 si hB riB siB : Nat)
    (hg : Methods.get_max_height dm.reads fuel ri = some (h, ri2))
    (hv0 : 0 < dm.innerH h) (hvle : dm.innerH h ≤ h)
    (hms : ∀ j, j ≤ h / dm.innerH h → (dm.shots (si + j)).isSome)
    (hBdef : (BrowserHandler.get_max_height db.reads 0 riB).1 = hB)
    (hB15 : 15000 ≤ hB)
    (hbs : ∀ j, j ≤ hB / 15000 → (db.shots (siB + j)).isSome) :
    (∃ run : CutRun,
        Methods.get_screenshot_using_cut_and_merger dm w fuel ri si = some run ∧
        countCaptures run.trace
          = h / dm.innerH h + (if h % dm.innerH h = 0 then 0 else 1) ∧
        ∃ c : Composite, run.result = Except.ok c ∧
          c.pastes.length
            = h / dm.innerH h + (if h % dm.innerH h = 0 then 0 else 1)) ∧
    countCaptures (BrowserHandler.get_screenshot_using_cut_and_merger db w riB siB).trace
      = hB / 15000 + (if hB % 15000 = 0 then 0 else 1) := by
  have hvne : dm.innerH h ≠ 0 := Nat.pos_iff_ne_zero.mp hv0
  constructor
  · have hn1 : 1 ≤ h / dm.innerH h := (Nat.one_le_div_iff hv0).mpr hvle
    obtain ⟨chunks, offset2, tr2, heq, hlen, hcap⟩ :=
      tile_loop_ok dm (h / dm.innerH h) 0 si [] [Eff.setWindowSize w h, Eff.sleep]
        (fun j hj => hms j (Nat.le_of_lt hj))
    simp only [List.nil_append] at heq
    cases chunks with
    | nil => simp at hlen; omega
    | cons first rest =>
      rcases Nat.eq_zero_or_pos (h % dm.innerH h) with hrem | hrem
      · have hpipe : Methods.get_screenshot_using_cut_and_merger dm w fuel ri si
            = some ⟨get_combined_screenshot (first :: rest) [w], dm.innerH h,
                [Eff.setWindowSize w h, Eff.sleep] ++ tr2⟩ := by
          simp only [Methods.get_screenshot_using_cut_and_merger, hg, if_neg hvne, heq,
            Methods.capture_remaining_page_rem_zero, hrem]
        refine ⟨_, hpipe, ?_, ?_⟩
        · rw [countCaptures_append, hcap, hrem,
            show countCaptures [Eff.setWindowSize w h, Eff.sleep] = 0 from rfl]
          simp
        · refine ⟨_, rfl, ?_⟩
          rw [show (Composite.mk first.mode w (totalHeight (first :: rest) + 150)
              (pastePlacements (first :: rest) 0)).pastes
              = pastePlacements (first :: rest) 0 from rfl]
          rw [pastePlacements_length, hlen, hrem]
          simp
      · have hne : h % dm.innerH h ≠ 0 := Nat.pos_iff_ne_zero.mp hrem
        obtain ⟨img, himg⟩ := Option.isSome_iff_exists.mp (hms _ le_rfl)
        have hpipe : Methods.get_screenshot_using_cut_and_merger dm w fuel ri si
            = some ⟨get_combined_screenshot ((first :: rest) ++ [img]) [w], dm.innerH h,
                ([Eff.setWindowSize w h, Eff.sleep] ++ tr2)
                  ++ [Eff.setBodyHeight h,
                      Eff.setWindowSize w (h % dm.innerH h + dm.chrome), Eff.sleep,
                      Eff.scrollTo 0 (first.height * (first :: rest).length), Eff.sleep,
                      Eff.capture]⟩ := by
          simp only [Methods.get_screenshot_using_cut_and_merger, hg, if_neg hvne, heq]
          rw [Methods.capture_remaining_page_rem_pos dm first rest h w (dm.innerH h)
            (si + h / dm.innerH h) ([Eff.setWindowSize w h, Eff.sleep] ++ tr2) img hne himg]
        refine ⟨_, hpipe, ?_, ?_⟩
        · rw [countCaptures_append, countCaptures_append, hcap,
            show countCaptures [Eff.setWindowSize w h, Eff.sleep] = 0 from rfl,
            show countCaptures [Eff.setBodyHeight h,
                Eff.setWindowSize w (h % dm.innerH h + dm.chrome), Eff.sleep,
                Eff.scrollTo 0 (first.height * (first :: rest).length), Eff.sleep,
                Eff.capture] = 1 from rfl,
            if_neg hne]
          omega
        · refine ⟨_, rfl, ?_⟩
          rw [show (Composite.mk first.mode w
              (totalHeight ((first :: rest) ++ [img]) + 150)
              (pastePlacements ((first :: rest) ++ [img]) 0)).pastes
              = pastePlacements ((first :: rest) ++ [img]) 0 from rfl]
          rw [pastePlacements_length, List.length_append, hlen, if_neg hne]
          simp
  · have hn1 : 1 ≤ hB / 15000 := (Nat.one_le_div_iff (by norm_num)).mpr hB15
    obtain ⟨chunks, offset2, tr2, heq, hlen, hcap⟩ :=
      tile_loop_ok db (hB / 15000) 0 siB [] [Eff.setWindowSize w (15000 + db.chrome)]
        (fun j hj => hbs j (Nat.le_of_lt hj))
    simp only [List.nil_append] at heq
    cases chunks with
    | nil => simp at hlen; omega
    | cons first rest =>
      rcases Nat.eq_zero_or_pos (hB % 15000) with hrem | hrem
      · have hpipe : (BrowserHandler.get_screenshot_using_cut_and_merger db w riB siB).trace
            = [Eff.setWindowSize w (15000 + db.chrome)] ++ tr2 := by
          simp only [BrowserHandler.get_screenshot_using_cut_and_merger, hBdef, heq]
          rw [BrowserHandler.capture_remaining_section_rem_zero db (first :: rest) hB w
            15000 (siB + hB / 15000) ([Eff.setWindowSize w (15000 + db.chrome)] ++ tr2)
            hrem]
          rfl
        rw [hpipe, countCaptures_append, hcap, hrem,
          show countCaptures [Eff.setWindowSize w (15000 + db.chrome)] = 0 from rfl]
        simp
      · have hne : hB % 15000 ≠ 0 := Nat.pos_iff_ne_zero.mp hrem
        obtain ⟨img, himg⟩ := Option.isSome_iff_exists.mp (hbs _ le_rfl)
        have hpipe : (BrowserHandler.get_screenshot_using_cut_and_merger db w riB siB).trace
            = ([Eff.setWindowSize w (15000 + db.chrome)] ++ tr2)
                ++ [Eff.setBodyHeight (hB + 15000),
                    Eff.setWindowSize w (hB % 15000 + db.chrome + 3500), Eff.sleep,
                    Eff.scrollTo 0 (first.height * (first :: rest).length), Eff.sleep,
                    Eff.capture] := by
          simp only [BrowserHandler.get_screenshot_using_cut_and_merger, hBdef, heq]
          rw [BrowserHandler.capture_remaining_section_rem_pos db first rest hB w
            15000 (siB + hB / 15000) ([Eff.setWindowSize w (15000 + db.chrome)] ++ tr2)
            img hne himg]
          rfl
        rw [hpipe, countCaptures_append, countCaptures_append, hcap,
          show countCaptures [Eff.setWindowSize w (15000 + db.chrome)] = 0 from rfl,
          show countCaptures [Eff.setBodyHeight (hB + 15000),
              Eff.setWindowSize w (hB % 15000 + db.chrome + 3500), Eff.sleep,
              Eff.scrollTo 0 (first.height * (first :: rest).length), Eff.sleep,
              Eff.capture] = 1 from rfl,
          if_neg hne]
        omega

/-- C2 witness: stabilized height 31000 with tile height 15000 gives two
primary captures plus one remainder capture (three tiles merged);
stabilized height 30000 with tile height 15000 gives exactly two captures
and no remainder capture. -/
theorem C2_witness :
    (∃ run : CutRun,
        Methods.get_screenshot_using_cut_and_merger (constDriver 31000) 800 1 0 0
          = some run ∧
        countCaptures run.trace
          = 31000 / (constDriver 31000).innerH 31000
            + (if 31000 % (constDriver 31000).innerH 31000 = 0 then 0 else 1) ∧
        ∃ c : Composite, run.result = Except.ok c ∧
          c.pastes.length
            = 31000 / (constDriver 31000).innerH 31000
              + (if 31000 % (constDriver 31000).innerH 31000 = 0 then 0 else 1)) ∧
    countCaptures
        (BrowserHandler.get_screenshot_using_cut_and_merger (constDriver 30000) 800 0 0).trace
      = 30000 / 15000 + (if 30000 % 15000 = 0 then 0 else 1) :=
  C2_thm (constDriver 31000) (constDriver 30000) 800 1 31000 0 2 0 30000 0 0
    (by decide) (by decide) (by decide) (fun j _ => rfl) (by decide) (by decide)
    (fun j _ => rfl)

/-- C9, counterexample: with a driver whose second tile capture raises a
driver error, both top-level capture entry points catch the exception in
their outer handler and return the still-unset result: the `main.py`
variant returns a normal `None` value and the BrowserHandler variant
returns without raising (the post-check `TypeError` is bypassed because
the handler returns from inside the `except` block) — the failure does
not surface to the caller as an error, contrary to the claim. -/
theorem C9_counterexample :
    (MainPy.get_screenshot_full failAfterOneDriver 800 15000 2).map Prod.fst
      = some none ∧
    (BrowserHandler.get_screenshot_full failAfterOneDriver 800 1000 15000).1
      = Except.ok none := by
  decide

/-- C9 (amended): when a capture call inside the tile loop raises a driver
error, the capture aborts without retry — exactly the failed call and the
preceding tile captures appear in the trace — and no partial tile
sequence or composite is returned; but the top-level handler catches the
error and the caller receives an empty (`None`) result rather than a
raised failure, in both variants. -/
theorem C9_thm (dm db : Driver) (w thr fuel h ri h2 ri2 k df_ht hB riB hB2 kB : Nat)
    (hg : Methods.get_max_height dm.reads fuel 0 = some (h, ri))
    (hgt : thr < h)
    (hg2 : Methods.get_max_height dm.reads fuel ri = some (h2, ri2))
    (hv0 : 0 < dm.innerH h2)
    (hk : k < h2 / dm.innerH h2)
    (hpre : ∀ j, j < k → (dm.shots j).isSome)
    (hfail : dm.shots k = none)
    (hBdef : BrowserHandler.get_max_height db.reads df_ht 0 = (hB, riB))
    (hBgt : thr < hB)
    (hB2def : (BrowserHandler.get_max_height db.reads 0 riB).1 = hB2)
    (hkB : kB < hB2 / 15000)
    (hpreB : ∀ j, j < kB → (db.shots j).isSome)
    (hfailB : db.shots kB = none) :
    (∃ tr, MainPy.get_screenshot_full dm w thr fuel = some (none, tr) ∧
       countCaptures tr = k + 1) ∧
    (∃ tr, BrowserHandler.get_screenshot_full db w df_ht thr = (Except.ok none, tr) ∧
       countCaptures tr = kB + 1) := by
  have hvne : dm.innerH h2 ≠ 0 := Nat.pos_iff_ne_zero.mp hv0
  constructor
  · obtain ⟨tr2, heq, hcap⟩ :=
      tile_loop_fail dm k (h2 / dm.innerH h2) 0 0 [] [Eff.setWindowSize w h2, Eff.sleep]
        hk (fun j hj => by simpa using hpre j hj) (by simpa using hfail)
    have hpipe : MainPy.get_screenshot_full dm w thr fuel
        = some (none, [Eff.setWindowSize w h2, Eff.sleep] ++ tr2) := by
      simp only [MainPy.get_screenshot_full, hg, if_neg (Nat.not_le_of_lt hgt),
        Methods.get_screenshot_using_cut_and_merger, hg2, if_neg hvne, heq]
    exact ⟨_, hpipe, by
      rw [countCaptures_append, hcap,
        show countCaptures [Eff.setWindowSize w h2, Eff.sleep] = 0 from rfl]
      omega⟩
  · obtain ⟨tr2, heq, hcap⟩ :=
      tile_loop_fail db kB (hB2 / 15000) 0 0 []
        [Eff.setWindowSize w (15000 + db.chrome)]
        hkB (fun j hj => by simpa using hpreB j hj) (by simpa using hfailB)
    have hpipe : BrowserHandler.get_screenshot_full db w df_ht thr
        = (Except.ok none, [Eff.setWindowSize w (15000 + db.chrome)] ++ tr2) := by
      simp only [BrowserHandler.get_screenshot_full, hBdef,
        if_neg (Nat.not_le_of_lt hBgt),
        BrowserHandler.get_screenshot_using_cut_and_merger, hB2def, heq]
    exact ⟨_, hpipe, by
      rw [countCaptures_append, hcap,
        show countCaptures [Eff.setWindowSize w (15000 + db.chrome)] = 0 from rfl]
      omega⟩

/-- C9 witness: the amended statement for a driver failing at its second
tile capture: exactly two capture calls, a `None` result, no composite. -/
theorem C9_witness :
    (∃ tr, MainPy.get_screenshot_full failAfterOneDriver 800 15000 2
        = some (none, tr) ∧ countCaptures tr = 2) ∧
    (∃ tr, BrowserHandler.get_screenshot_full failAfterOneDriver 800 1000 15000
        = (Except.ok none, tr) ∧ countCaptures tr = 2) :=
  C9_thm failAfterOneDriver failAfterOneDriver 800 15000 2 31000 2 31000 4 1 1000
    31000 2 31000 1 (by decide) (by decide) (by decide) (by decide) (by decide)
    (fun j hj => by
      have hj0 : j = 0 := by omega
      subst hj0
      rfl)
    rfl (by decide) (by decide) (by decide) (by decide)
    (fun j hj => by
      have hj0 : j = 0 := by omega
      subst hj0
      rfl)
    rfl
